import Mathlib

/-
Verification of the event-processing pipeline of the prague-family-events
repository: deduplication (services/deduplication.ts), scoring
(services/scoring.ts), spatial filtering and archival (cron/daily-scrape.ts).

Numbers of the JavaScript source are embedded as rationals; optional fields
become Option; JavaScript truthiness (undefined, 0 and the empty string are
falsy) is modelled explicitly by the js* helpers below. Strings are treated
at the character-code level with an ASCII lower-casing (the claims under
verification only exercise ASCII data).
-/

namespace PFE

/-- Rounding of JavaScript Math.round: halves round toward positive infinity. -/
def jsRound (q : ℚ) : ℤ := ⌊q + 1/2⌋

/-- Truthiness of an optional JavaScript number: undefined and 0 are falsy. -/
def truthyNum (x : Option ℚ) : Bool := x.getD 0 ≠ 0

/-- Truthiness of an optional JavaScript string: undefined and the empty string are falsy. -/
def truthyStr (x : Option String) : Bool := x.getD "" ≠ ""

/-- The JavaScript expression a || b on optional strings (empty string falsy). -/
def jsStrOr (a b : Option String) : Option String := if truthyStr a then a else b

/-- The JavaScript expression a || b on optional numbers (0 falsy). -/
def jsNumOr (a b : Option ℚ) : Option ℚ := if truthyNum a then a else b

/-- The JavaScript expression a || b on optional booleans. -/
def jsBoolOr (a b : Option Bool) : Option Bool := if a = some true then a else b

/-- Observable state of a JavaScript Date: epoch milliseconds plus the local
calendar readings the pipeline consults (getTime, getFullYear, getMonth,
getDate, getHours, getDay). -/
structure JSDate where
  time : ℤ
  year : ℤ
  month : ℤ
  day : ℤ
  hours : ℤ
  dayOfWeek : ℤ
deriving DecidableEq, Repr

/-- RawEvent of types.ts: an unvalidated event extracted from one source. -/
structure RawEvent where
  externalId : String
  source : String
  title : String
  description : Option String
  startDateTime : JSDate
  endDateTime : Option JSDate
  locationName : Option String
  address : Option String
  category : Option String
  ageMin : Option ℚ
  ageMax : Option ℚ
  adultPrice : Option ℚ
  childPrice : Option ℚ
  familyPrice : Option ℚ
  isOutdoor : Option Bool
  durationMinutes : Option ℚ
  imageUrl : Option String
  bookingUrl : Option String
deriving DecidableEq, Repr

/-- GeocodedEvent of types.ts: RawEvent plus optional coordinates and distance. -/
structure GeocodedEvent extends RawEvent where
  latitude : Option ℚ
  longitude : Option ℚ
  distanceFromPrague : Option ℚ
deriving DecidableEq, Repr

/-- ScoredEvent of types.ts: GeocodedEvent plus the three audience scores. -/
structure ScoredEvent extends GeocodedEvent where
  scoreToddler : ℤ
  scoreChild : ℤ
  scoreFamily : ℤ
deriving DecidableEq, Repr

/-- AgeGroup enum of types.ts. -/
inductive AgeGroup where
  | toddler
  | child
  | family
deriving DecidableEq, Repr

/-- WeatherData of types.ts. -/
structure WeatherData where
  date : String
  temperature : ℚ
  condition : String
  isGoodForOutdoor : Bool
deriving DecidableEq, Repr

/-- ScoreFactors of types.ts: the per-factor breakdown returned by scoreEvent. -/
structure ScoreFactors where
  ageAppropriatenessScore : ℚ
  distanceScore : ℚ
  priceScore : ℚ
  eventTypeScore : ℚ
  timingScore : ℚ
  durationScore : ℚ
  seasonalityScore : ℚ
  weatherScore : ℚ
deriving DecidableEq, Repr

/-- ASCII lower-casing of one character, the fragment of String.toLowerCase
the verified inputs exercise; other characters are left unchanged. -/
def asciiLower (c : Char) : Char :=
  if 'A' ≤ c ∧ c ≤ 'Z' then Char.ofNat (c.toNat + 32) else c

/-- Model of String.toLowerCase. -/
def toLower (s : String) : String := String.mk (s.toList.map asciiLower)

/-- Model of the substring test s.includes(sub) of JavaScript. -/
def jsIncludes (s sub : String) : Bool := decide (List.IsInfix sub.toList s.toList)

/-- Whitespace class of the regular expression escape backslash-s (ASCII part). -/
def isWs (c : Char) : Bool :=
  c = ' ' ∨ c = '\t' ∨ c = '\n' ∨ c = '\r' ∨ c = '\x0b' ∨ c = '\x0c'

/-- Word-character class of the regular expression escape backslash-w. -/
def isWordChar (c : Char) : Bool := c.isAlphanum ∨ c = '_'

/-- Characters kept by the Czech ranges of the normalization regexes:
the union of the ranges U+00C1 to U+017D and U+00E1 to U+017E. -/
def isCzechChar (c : Char) : Bool := 0xC1 ≤ c.toNat ∧ c.toNat ≤ 0x17E

/-- Model of String.trim: drop whitespace from both ends. -/
def trimChars (l : List Char) : List Char :=
  ((l.dropWhile isWs).reverse.dropWhile isWs).reverse

/-- Model of replace(/s+/g, a single space): collapse whitespace runs, carrying
a flag recording whether the previous character was whitespace. -/
def collapseWs : Bool → List Char → List Char
  | _, [] => []
  | prevWs, c :: rest =>
    if isWs c then
      if prevWs then collapseWs true rest else ' ' :: collapseWs true rest
    else c :: collapseWs false rest

/-- Fuel-indexed Levenshtein recurrence; the fuel only forces structural
recursion and is irrelevant whenever it covers the combined length. -/
def levenshteinAux : ℕ → List Char → List Char → ℕ
  | _, [], ys => ys.length
  | _, x :: xs, [] => (x :: xs).length
  | 0, _ :: _, _ :: _ => 0
  | fuel + 1, x :: xs, y :: ys =>
    if x = y then levenshteinAux fuel xs ys
    else 1 + min (min (levenshteinAux fuel xs (y :: ys)) (levenshteinAux fuel (x :: xs) ys))
          (levenshteinAux fuel xs ys)

/-- levenshteinDistance of deduplication.ts. The source tabulates dp with
dp i 0 = i, dp 0 j = j and dp i j = dp (i-1) (j-1) when the i-th and j-th
characters agree, else 1 + min of deletion, insertion and substitution;
this is exactly the recurrence of levenshteinAux, taken over suffixes, and
the initial fuel covers every chain of recursive calls. -/
def levenshteinDistance (s t : List Char) : ℕ :=
  levenshteinAux (s.length + t.length) s t

theorem levenshteinAux_irrel : ∀ (f1 f2 : ℕ) (s t : List Char),
    s.length + t.length ≤ f1 → s.length + t.length ≤ f2 →
    levenshteinAux f1 s t = levenshteinAux f2 s t := by
  intro f1
  induction f1 with
  | zero =>
    intro f2 s t h1 _
    match s, t with
    | [], ys => cases f2 <;> rfl
    | x :: xs, [] => cases f2 <;> rfl
    | x :: xs, y :: ys => simp at h1
  | succ f ih =>
    intro f2 s t h1 h2
    match s, t with
    | [], ys => cases f2 <;> rfl
    | x :: xs, [] => cases f2 <;> rfl
    | x :: xs, y :: ys =>
      match f2, h2 with
      | g + 1, h2 =>
        simp only [List.length_cons] at h1 h2
        simp only [levenshteinAux]
        rw [ih g xs ys (by omega) (by omega),
          ih g xs (y :: ys) (by simp only [List.length_cons]; omega)
            (by simp only [List.length_cons]; omega),
          ih g (x :: xs) ys (by simp only [List.length_cons]; omega)
            (by simp only [List.length_cons]; omega)]

theorem levenshteinDistance_nil_left (t : List Char) :
    levenshteinDistance [] t = t.length := by
  cases t <;> rfl

theorem levenshteinDistance_nil_right (s : List Char) :
    levenshteinDistance s [] = s.length := by
  cases s <;> rfl

theorem levenshteinDistance_cons_cons (x y : Char) (xs ys : List Char) :
    levenshteinDistance (x :: xs) (y :: ys) =
      if x = y then levenshteinDistance xs ys
      else 1 + min (min (levenshteinDistance xs (y :: ys))
            (levenshteinDistance (x :: xs) ys)) (levenshteinDistance xs ys) := by
  show levenshteinAux ((x :: xs).length + (y :: ys).length) (x :: xs) (y :: ys) = _
  have hl : (x :: xs).length + (y :: ys).length = (xs.length + ys.length) + 1 + 1 := by
    simp only [List.length_cons]; omega
  rw [hl]
  simp only [levenshteinAux]
  rw [levenshteinAux_irrel (xs.length + ys.length + 1) (xs.length + ys.length) xs ys
      (by omega) (by omega),
    levenshteinAux_irrel (xs.length + ys.length + 1) (xs.length + (y :: ys).length) xs
      (y :: ys) (by simp only [List.length_cons]; omega)
      (by simp only [List.length_cons]; omega),
    levenshteinAux_irrel (xs.length + ys.length + 1) ((x :: xs).length + ys.length)
      (x :: xs) ys (by simp only [List.length_cons]; omega)
      (by simp only [List.length_cons]; omega)]
  rfl

/-- stringSimilarity of deduplication.ts: 1 minus Levenshtein distance of the
lower-cased strings over the maximum input length, 1.0 on two empty strings. -/
def stringSimilarity (str1 str2 : String) : ℚ :=
  let distance := levenshteinDistance (toLower str1).toList (toLower str2).toList
  let maxLength := max str1.length str2.length
  if maxLength = 0 then 1 else 1 - (distance : ℚ) / (maxLength : ℚ)

/-- normalizeTitle of deduplication.ts: lower-case, trim, strip characters
outside word, Czech and whitespace classes, collapse whitespace. -/
def normalizeTitle (title : String) : String :=
  let lowered := (toLower title).toList
  let kept := (trimChars lowered).filter (fun c => isWordChar c ∨ isCzechChar c ∨ isWs c)
  String.mk (collapseWs false kept)

/-- normalizeLocation of deduplication.ts: empty on a falsy input, else the
same pipeline as normalizeTitle. -/
def normalizeLocation (location : Option String) : String :=
  if ¬ truthyStr location then "" else normalizeTitle (location.getD "")

/-- isSameDay of deduplication.ts: equal local year, month and day. -/
def isSameDay (date1 date2 : JSDate) : Bool :=
  decide (date1.year = date2.year ∧ date1.month = date2.month ∧ date1.day = date2.day)

/-- isWithinHours of deduplication.ts: absolute difference of epoch
milliseconds, converted to hours, at most the threshold. -/
def isWithinHours (date1 date2 : JSDate) (hours : ℚ) : Bool :=
  decide (|(date1.time : ℚ) - (date2.time : ℚ)| / (1000 * 60 * 60) ≤ hours)

/-- Core arithmetic of calculateDuplicateScore, abstracted over the pairwise
observations: the running score and the running factor weight accumulate per
branch exactly as in the source, and the quotient is taken when positive. -/
def duplicateScoreCore (titleSim : ℚ) (sameDay withinTwo locApplied : Bool)
    (locSim : ℚ) (priceApplied : Bool) (priceDiff avgPrice : ℚ) : ℚ :=
  let score := titleSim * 0.4
    + (if sameDay then 0.3 + (if withinTwo then 0.1 else 0) else 0)
    + (if locApplied then locSim * 0.2 else 0)
    + (if priceApplied then
        (if avgPrice > 0 then (1 - min 1 (priceDiff / avgPrice)) * 0.1 else 0.1)
       else 0)
  let factors := 0.4 + (if sameDay ∧ withinTwo then 0.1 else 0) + 0.3
    + (if locApplied then 0.2 else 0) + (if priceApplied then 0.1 else 0)
  if factors > 0 then score / factors else 0

/-- calculateDuplicateScore of deduplication.ts. Title similarity always
applies at weight 0.4; the same-day weight 0.3 always enters the denominator,
with the extra 0.1 bonus weight only when the starts are on the same day and
within two hours; location at 0.2 only when both normalized locations are
non-empty; adult-price similarity at 0.1 only when both adult prices are
defined, with full credit when the average price is 0. -/
def calculateDuplicateScore (event1 event2 : RawEvent) : ℚ :=
  let location1 := normalizeLocation (jsStrOr event1.locationName event1.address)
  let location2 := normalizeLocation (jsStrOr event2.locationName event2.address)
  duplicateScoreCore
    (stringSimilarity (normalizeTitle event1.title) (normalizeTitle event2.title))
    (isSameDay event1.startDateTime event2.startDateTime)
    (isWithinHours event1.startDateTime event2.startDateTime 2)
    (decide (location1 ≠ "") && decide (location2 ≠ ""))
    (stringSimilarity location1 location2)
    (event1.adultPrice.isSome && event2.adultPrice.isSome)
    |event1.adultPrice.getD 0 - event2.adultPrice.getD 0|
    ((event1.adultPrice.getD 0 + event2.adultPrice.getD 0) / 2)

/-- isDuplicate of deduplication.ts: composite score at least the threshold. -/
def isDuplicate (event1 event2 : RawEvent) (threshold : ℚ) : Bool :=
  decide (calculateDuplicateScore event1 event2 ≥ threshold)

/-- mergeEvents of deduplication.ts, field by field, with JavaScript
truthiness of || and the null-only coalescing of the ?? fallbacks. -/
def mergeEvents (event1 event2 : RawEvent) : RawEvent where
  externalId := event1.externalId
  source := event1.source ++ "," ++ event2.source
  title := if event1.title.length > event2.title.length then event1.title else event2.title
  description :=
    if ¬ truthyStr event1.description ∨
        (truthyStr event2.description ∧
          (event1.description.getD "").length < (event2.description.getD "").length)
    then event2.description else event1.description
  startDateTime := event1.startDateTime
  endDateTime := event1.endDateTime.or event2.endDateTime
  locationName := jsStrOr event1.locationName event2.locationName
  address := jsStrOr event1.address event2.address
  category := jsStrOr event1.category event2.category
  ageMin :=
    match event1.ageMin, event2.ageMin with
    | some x, some y => some (max x y)
    | x, y => x.or y
  ageMax :=
    match event1.ageMax, event2.ageMax with
    | some x, some y => some (min x y)
    | x, y => x.or y
  adultPrice :=
    match event1.adultPrice, event2.adultPrice with
    | some x, some y => some (min x y)
    | x, y => x.or y
  childPrice :=
    match event1.childPrice, event2.childPrice with
    | some x, some y => some (min x y)
    | x, y => x.or y
  familyPrice :=
    match event1.familyPrice, event2.familyPrice with
    | some x, some y => some (min x y)
    | x, y => x.or y
  isOutdoor := jsBoolOr event1.isOutdoor event2.isOutdoor
  durationMinutes := jsNumOr event1.durationMinutes event2.durationMinutes
  imageUrl := jsStrOr event1.imageUrl event2.imageUrl
  bookingUrl := jsStrOr event1.bookingUrl event2.bookingUrl

/-- Inner loop of deduplicateEvents: scan forward over the not-yet-consumed
events, folding each detected duplicate into the running merged record and
returning the merged record together with the survivors in order. -/
def absorbDuplicates (threshold : ℚ) : RawEvent → List RawEvent → RawEvent × List RawEvent
  | merged, [] => (merged, [])
  | merged, e :: rest =>
    if isDuplicate merged e threshold then absorbDuplicates threshold (mergeEvents merged e) rest
    else
      let r := absorbDuplicates threshold merged rest
      (r.1, e :: r.2)

theorem absorbDuplicates_snd_length (threshold : ℚ) (m : RawEvent) (l : List RawEvent) :
    (absorbDuplicates threshold m l).2.length ≤ l.length := by
  induction l generalizing m with
  | nil => simp [absorbDuplicates]
  | cons e rest ih =>
    simp only [absorbDuplicates]
    split
    · exact le_trans (ih _) (Nat.le_succ _)
    · simpa using ih m

/-- Fuel-indexed outer loop of deduplicateEvents; the fuel only forces
structural recursion and is irrelevant whenever it covers the list length,
which the inner scan never increases. -/
def deduplicateAux : ℕ → List RawEvent → ℚ → List RawEvent
  | _, [], _ => []
  | 0, _ :: _, _ => []
  | fuel + 1, e :: rest, threshold =>
    let r := absorbDuplicates threshold e rest
    r.1 :: deduplicateAux fuel r.2 threshold

/-- deduplicateEvents of deduplication.ts: the outer loop over unconsumed
records, each heading a pass of the inner scan; the initial fuel covers
every chain of recursive calls. -/
def deduplicateEvents (events : List RawEvent) (threshold : ℚ) : List RawEvent :=
  deduplicateAux events.length events threshold

theorem deduplicateAux_irrel : ∀ (f1 f2 : ℕ) (l : List RawEvent) (t : ℚ),
    l.length ≤ f1 → l.length ≤ f2 → deduplicateAux f1 l t = deduplicateAux f2 l t := by
  intro f1
  induction f1 with
  | zero =>
    intro f2 l t h1 _
    match l with
    | [] => cases f2 <;> rfl
    | e :: rest => simp at h1
  | succ f ih =>
    intro f2 l t h1 h2
    match l with
    | [] => cases f2 <;> rfl
    | e :: rest =>
      match f2, h2 with
      | g + 1, h2 =>
        simp only [List.length_cons] at h1 h2
        simp only [deduplicateAux]
        have hlen := absorbDuplicates_snd_length t e rest
        rw [ih g (absorbDuplicates t e rest).2 t (by omega) (by omega)]

theorem deduplicateEvents_nil (t : ℚ) : deduplicateEvents [] t = [] := rfl

theorem deduplicateEvents_cons (e : RawEvent) (rest : List RawEvent) (t : ℚ) :
    deduplicateEvents (e :: rest) t =
      (absorbDuplicates t e rest).1 ::
        deduplicateEvents (absorbDuplicates t e rest).2 t := by
  show deduplicateAux (rest.length + 1) (e :: rest) t = _
  simp only [deduplicateAux]
  rw [deduplicateAux_irrel rest.length (absorbDuplicates t e rest).2.length
      (absorbDuplicates t e rest).2 t (absorbDuplicates_snd_length t e rest) le_rfl]
  rfl

/-! Scoring engine, services/scoring.ts. -/

/-- BASE_SCORE of scoring.ts. -/
def BASE_SCORE : ℚ := 50

/-- calculateAgeScore of scoring.ts. Guards follow JavaScript truthiness of
the optional numbers: an age bound of 0 behaves like a missing bound. -/
def calculateAgeScore (ageMin ageMax targetAge : Option ℚ) (ageGroup : AgeGroup) : ℚ :=
  if ¬ truthyNum ageMin ∧ ¬ truthyNum ageMax then
    match ageGroup with
    | .toddler => 8
    | .child => 12
    | .family => 15
  else if ¬ truthyNum targetAge then 12
  else
    let am := ageMin.getD 0
    let ax := ageMax.getD 0
    let ta := targetAge.getD 0
    if truthyNum ageMin ∧ truthyNum ageMax ∧ ta ≥ am ∧ ta ≤ ax then 25
    else if truthyNum ageMin ∧ ¬ truthyNum ageMax ∧ ta ≥ am then
      if ta - am < 2 then 23 else if ta - am < 5 then 20 else 16
    else if truthyNum ageMax ∧ ¬ truthyNum ageMin ∧ ta ≤ ax then
      if ax - ta > 2 then 23 else if ax - ta ≥ 0 then 20 else 16
    else if truthyNum ageMin ∧ ta < am then
      if am - ta ≤ 1 then 15 else if am - ta ≤ 2 then 10 else if am - ta ≤ 4 then 5 else 0
    else if truthyNum ageMax ∧ ta > ax then
      if ta - ax ≤ 1 then 15 else if ta - ax ≤ 2 then 10 else if ta - ax ≤ 4 then 5 else 0
    else 0

/-- calculateDistanceScore of scoring.ts: an absent distance is penalized
with 3 points, and a distance of 0 falls into the same falsy branch. -/
def calculateDistanceScore (distance : Option ℚ) : ℚ :=
  if ¬ truthyNum distance then 3
  else
    let d := distance.getD 0
    if d < 10 then 15 else if d < 30 then 10 else if d < 70 then 5
    else if d < 130 then 2 else 0

/-- calculatePriceScore of scoring.ts: 3 points when no price signal at all,
else band the effective family price, the cheaper of the explicit family
price and two adults plus one child. -/
def calculatePriceScore (adultPrice childPrice familyPrice : Option ℚ) : ℚ :=
  if ¬ truthyNum adultPrice ∧ ¬ truthyNum childPrice ∧ ¬ truthyNum familyPrice then 3
  else
    let individualPrice := adultPrice.getD 0 * 2 +
      (if truthyNum childPrice then childPrice.getD 0
       else if truthyNum adultPrice then adultPrice.getD 0 else 0)
    let effectivePrice :=
      if truthyNum familyPrice ∧ familyPrice.getD 0 < individualPrice
      then familyPrice.getD 0 else individualPrice
    if effectivePrice = 0 then 15 else if effectivePrice < 200 then 12
    else if effectivePrice < 500 then 8 else if effectivePrice < 1000 then 4 else 2

/-- Model of the JavaScript access weather?.isGoodForOutdoor as a boolean:
false when the weather is absent. -/
def weatherGood (weather : Option WeatherData) : Bool :=
  match weather with
  | some w => w.isGoodForOutdoor
  | none => false

/-- calculateEventTypeScore of scoring.ts: base 5, keyword penalties per
profile, weather adjustment for outdoor events, keyword bonuses, then an
upper clamp at 15 with no lower clamp. -/
def calculateEventTypeScore (category : Option String) (isOutdoor : Option Bool)
    (ageGroup : AgeGroup) (weather : Option WeatherData) : ℚ :=
  if ¬ truthyStr category then 5
  else
    let cat := toLower (category.getD "")
    let s0 : ℚ := 5
    let s1 : ℚ :=
      match ageGroup with
      | .toddler =>
        let a := if jsIncludes cat "concert" ∧ ¬ jsIncludes cat "kids" ∧
            ¬ jsIncludes cat "children" then s0 - 15 else s0
        let b := if jsIncludes cat "club" ∨ jsIncludes cat "nightclub" ∨
            jsIncludes cat "bar" then a - 20 else a
        let c := if jsIncludes cat "lecture" ∨ jsIncludes cat "conference" ∨
            jsIncludes cat "business" then b - 18 else b
        if jsIncludes cat "horror" ∨ jsIncludes cat "scary" then c - 20 else c
      | .child =>
        let a := if jsIncludes cat "nightclub" ∨ jsIncludes cat "bar crawl"
            then s0 - 20 else s0
        let b := if jsIncludes cat "business" ∨ jsIncludes cat "networking"
            then a - 15 else a
        if jsIncludes cat "horror" ∧ ¬ jsIncludes cat "mild" then b - 10 else b
      | .family => s0
    let s2 : ℚ :=
      if isOutdoor = some true ∧ weatherGood weather then s1 + 8
      else if isOutdoor = some true ∧ weather.isSome ∧ weatherGood weather = false
      then s1 - 3
      else s1
    let s3 := if jsIncludes cat "museum" ∨ jsIncludes cat "educational" ∨
        jsIncludes cat "workshop" then s2 + 7 else s2
    let s4 := if jsIncludes cat "workshop" ∨ jsIncludes cat "interactive" ∨
        jsIncludes cat "sport" then s3 + 5 else s3
    let s5 :=
      match ageGroup with
      | .toddler =>
        let a := if jsIncludes cat "playground" ∨ jsIncludes cat "soft play" ∨
            jsIncludes cat "puppet" then s4 + 9 else s4
        let b := if jsIncludes cat "petting zoo" ∨ jsIncludes cat "farm" ∨
            jsIncludes cat "animals" then a + 8 else a
        let c := if jsIncludes cat "music" ∨ jsIncludes cat "sensory" then b + 7 else b
        if jsIncludes cat "theater" ∧ ¬ jsIncludes cat "puppet" then c - 2 else c
      | .child =>
        let a := if jsIncludes cat "museum" ∨ jsIncludes cat "science" ∨
            jsIncludes cat "educational" then s4 + 8 else s4
        let b := if jsIncludes cat "sport" ∨ jsIncludes cat "climbing" ∨
            jsIncludes cat "adventure" then a + 7 else a
        let c := if jsIncludes cat "workshop" ∨ jsIncludes cat "craft" ∨
            jsIncludes cat "art" then b + 7 else b
        if jsIncludes cat "theater" ∨ jsIncludes cat "cinema" then c + 6 else c
      | .family =>
        let a := if jsIncludes cat "festival" ∨ jsIncludes cat "zoo" ∨
            jsIncludes cat "park" then s4 + 7 else s4
        let b := if jsIncludes cat "exhibition" ∨ jsIncludes cat "museum" then a + 6 else a
        if jsIncludes cat "outdoor" ∨ jsIncludes cat "nature" ∨
            jsIncludes cat "hiking" then b + 6 else b
    min s5 15

/-- calculateTimingScore of scoring.ts: weekend bonus plus a profile-specific
preferred-hour bonus, clamped at 10. -/
def calculateTimingScore (startDateTime : JSDate) (ageGroup : AgeGroup) : ℚ :=
  let weekend : ℚ :=
    if startDateTime.dayOfWeek = 0 ∨ startDateTime.dayOfWeek = 6 then 5 else 0
  let hour := startDateTime.hours
  let daypart : ℚ :=
    match ageGroup with
    | .toddler =>
      if 9 ≤ hour ∧ hour < 11 then 5 else if 11 ≤ hour ∧ hour < 14 then 2 else 0
    | .child => if 14 ≤ hour ∧ hour < 17 then 3 else 0
    | .family => if 10 ≤ hour ∧ hour < 18 then 2 else 0
  min (weekend + daypart) 10

/-- calculateDurationScore of scoring.ts: an absent duration is penalized
with 2 points, else profile-specific optimal bands. -/
def calculateDurationScore (durationMinutes : Option ℚ) (ageGroup : AgeGroup) : ℚ :=
  if ¬ truthyNum durationMinutes then 2
  else
    let d := durationMinutes.getD 0
    match ageGroup with
    | .toddler =>
      if 30 ≤ d ∧ d ≤ 60 then 10 else if 60 ≤ d ∧ d ≤ 90 then 7
      else if d < 30 then 5 else 3
    | .child =>
      if 90 ≤ d ∧ d ≤ 180 then 10 else if 60 ≤ d ∧ d ≤ 90 then 8
      else if 180 ≤ d ∧ d ≤ 240 then 7 else 5
    | .family =>
      if 90 ≤ d ∧ d ≤ 240 then 10 else if 60 ≤ d ∧ d ≤ 90 then 8 else 6

/-- Seasonal keyword list of calculateSeasonalityScore. The non-ASCII Czech
keywords appear double-encoded in the source file; they are written here in
their intended form, and the verified inputs contain none of them. -/
def seasonalKeywords : List String :=
  ["festival", "speciální", "výjimečný", "limited", "exkluzivní",
   "pouze", "jednou", "naposledy", "premiéra", "closing"]

/-- calculateSeasonalityScore of scoring.ts: 5 on a seasonal keyword in the
lower-cased title and description, else a calendar bonus for December (month
index 11) and the approximate Easter months (indices 2 and 3). -/
def calculateSeasonalityScore (title : String) (description : Option String)
    (startDateTime : Option JSDate) : ℚ :=
  let text := toLower (title ++ " " ++ description.getD "")
  if seasonalKeywords.any (fun keyword => jsIncludes text keyword) then 5
  else
    match startDateTime with
    | some d => if d.month = 11 then 5 else if d.month = 3 ∨ d.month = 2 then 3 else 0
    | none => 0

/-- calculateDataCompletenessMultiplier of scoring.ts: weighted presence of
six optional signals out of a total weight of 8, mapped linearly onto the
interval from 0.7 to 1.0. Presence tests use a null check (so 0 counts as
present) except description and image, which use truthiness. -/
def calculateDataCompletenessMultiplier (event : GeocodedEvent) : ℚ :=
  let completeness : ℚ :=
    (if event.ageMin.isSome ∧ event.ageMax.isSome then 2 else 0)
    + (if event.distanceFromPrague.isSome then 2 else 0)
    + (if event.adultPrice.isSome ∨ event.childPrice.isSome ∨ event.familyPrice.isSome
       then 1 else 0)
    + (if event.durationMinutes.isSome then 1 else 0)
    + (if (event.description.getD "").length > 50 then 1 else 0)
    + (if truthyStr event.imageUrl then 1 else 0)
  let totalFields : ℚ := 8
  let completenessFrac := completeness / totalFields
  0.7 + completenessFrac * 0.3

/-- Result record of scoreEvent. -/
structure ScoreResult where
  score : ℤ
  factors : ScoreFactors
deriving DecidableEq, Repr

/-- scoreEvent of scoring.ts: sum the seven factors over the base of 50,
scale by the completeness multiplier, clamp at 100 and round. -/
def scoreEvent (event : GeocodedEvent) (ageGroup : AgeGroup)
    (weather : Option WeatherData) : ScoreResult :=
  let targetAge : Option ℚ :=
    match ageGroup with | .toddler => some 2 | .child => some 8 | .family => none
  let ageScore := calculateAgeScore event.ageMin event.ageMax targetAge ageGroup
  let distanceScore := calculateDistanceScore event.distanceFromPrague
  let priceScore := calculatePriceScore event.adultPrice event.childPrice event.familyPrice
  let eventTypeScore := calculateEventTypeScore event.category event.isOutdoor ageGroup weather
  let timingScore := calculateTimingScore event.startDateTime ageGroup
  let durationScore := calculateDurationScore event.durationMinutes ageGroup
  let seasonalityScore :=
    calculateSeasonalityScore event.title event.description (some event.startDateTime)
  let dataMultiplier := calculateDataCompletenessMultiplier event
  let totalScore := min 100
    ((BASE_SCORE + ageScore + distanceScore + priceScore + eventTypeScore +
      timingScore + durationScore + seasonalityScore) * dataMultiplier)
  { score := jsRound totalScore
    factors :=
      { ageAppropriatenessScore := ageScore
        distanceScore := distanceScore
        priceScore := priceScore
        eventTypeScore := eventTypeScore
        timingScore := timingScore
        durationScore := durationScore
        seasonalityScore := seasonalityScore
        weatherScore := if weatherGood weather then 5 else 0 } }

/-! Spatial filter and archival, cron/daily-scrape.ts. -/

/-- Return record of geocodeAndCalculateDistance of geocoding.ts. -/
structure GeoResult where
  latitude : ℚ
  longitude : ℚ
  distanceFromPrague : ℚ
deriving DecidableEq, Repr

/-- A geocoding collaborator: the deterministic resolution behaviour of
geocodeAndCalculateDistance during one run (the live service consults a
per-run cache, so repeated lookups agree); none models every failure path,
which geocodeAddress converts into a null return. -/
def Geocoder : Type := String → Option GeoResult

/-- A raw event viewed as a GeocodedEvent with no coordinates, the model of
the TypeScript cast of processEvents when geocoding fails. -/
def toGeocoded (event : RawEvent) : GeocodedEvent :=
  { toRawEvent := event, latitude := none, longitude := none, distanceFromPrague := none }

/-- A raw event extended with the coordinates of a geocoding result, as
built by processEvents when resolution succeeds within the radius. -/
def withCoords (event : RawEvent) (geoResult : GeoResult) : GeocodedEvent :=
  { toRawEvent := event
    latitude := some geoResult.latitude
    longitude := some geoResult.longitude
    distanceFromPrague := some geoResult.distanceFromPrague }

/-- The address handed to the geocoder by processEvents:
event.address || event.locationName || the empty string. -/
def effectiveAddress (event : RawEvent) : String :=
  (jsStrOr (jsStrOr event.address event.locationName) (some "")).getD ""

/-- Loop body of processEvents of daily-scrape.ts for one record: skip a
record lacking both address and location name before any resolution, keep a
record whose resolution fails without coordinates, drop a resolved record
farther than 130 km, keep the rest with coordinates. The catch branch is
unreachable here because the modelled geocoder is total. -/
def processOne (geocoder : Geocoder) (event : RawEvent) : Option GeocodedEvent :=
  if ¬ truthyStr event.address ∧ ¬ truthyStr event.locationName then none
  else
    match geocoder (effectiveAddress event) with
    | none => some (toGeocoded event)
    | some geoResult =>
      if geoResult.distanceFromPrague > 130 then none
      else some (withCoords event geoResult)

/-- processEvents of daily-scrape.ts: the sequential loop over raw events,
appending each kept record in order. -/
def processEvents (geocoder : Geocoder) : List RawEvent → List GeocodedEvent
  | [] => []
  | event :: rest =>
    match processOne geocoder event with
    | none => processEvents geocoder rest
    | some geocodedEvent => geocodedEvent :: processEvents geocoder rest

/-- Milliseconds of one day, the unit of the 30-day archival cutoff. -/
def msPerDay : ℤ := 24 * 60 * 60 * 1000

/-- Modelled from the spec: the persistence collaborator operation
deleteOlderThan of section 6 (realized via the external Prisma deleteMany
with a lt filter on startDateTime, code not part of this repository): the
store, modelled as a list of persisted records, keeps exactly the records
whose start time is not before the cutoff. -/
def deleteStartingBefore (cutoff : ℤ) (store : List ScoredEvent) : List ScoredEvent :=
  store.filter (fun event => ¬ event.startDateTime.time < cutoff)

/-- archiveOldEvents of daily-scrape.ts: delete persisted records starting
before thirty days ago, with subDays modelled as epoch-millisecond
subtraction. -/
def archiveOldEvents (now : ℤ) (store : List ScoredEvent) : List ScoredEvent :=
  deleteStartingBefore (now - 30 * msPerDay) store

/-! Concrete records used as witnesses and counterexamples. -/

/-- A Tuesday in mid April, away from every seasonal bonus window. -/
def d0 : JSDate := ⟨1744742400000, 2025, 4, 15, 20, 2⟩

/-- A Saturday morning in mid May. -/
def dSat : JSDate := ⟨1747467000000, 2025, 4, 17, 10, 6⟩

/-- A minimal raw event: every optional field absent. -/
def baseEvent : RawEvent :=
  { externalId := "e1", source := "s1", title := "aaaa", description := none,
    startDateTime := d0, endDateTime := none, locationName := none, address := none,
    category := none, ageMin := none, ageMax := none, adultPrice := none,
    childPrice := none, familyPrice := none, isOutdoor := none,
    durationMinutes := none, imageUrl := none, bookingUrl := none }

/-- First record of the idempotence counterexample: title of similarity 9/10
to evC and 11/14 to evB at equal start times. -/
def evA : RawEvent := baseEvent

/-- Second record of the idempotence counterexample. -/
def evB : RawEvent := { baseEvent with externalId := "e2", source := "s2", title := "aaaaabb" }

/-- Third record of the idempotence counterexample: the first pass merges it
into evA, and its longer title survives the merge. -/
def evC : RawEvent := { baseEvent with externalId := "e3", source := "s3", title := "aaaaa" }

/-- A pair of records identical except for adult prices 0 and 10, exhibiting
the clamp in the price similarity sub-score. -/
def ce1 : RawEvent := { baseEvent with title := "Koncert", adultPrice := some 0 }

/-- Companion record of ce1 with adult price 10. -/
def ce2 : RawEvent :=
  { baseEvent with
    externalId := "e2"
    source := "s2"
    title := "Koncert"
    adultPrice := some 10 }

/-- Unfavorable weather for outdoor events. -/
def badWeather : WeatherData := ⟨"2025-04-15", 10, "rain", false⟩

/-- Raw part of the record on which the toddler score goes negative: the
category hits the concert, club, lecture, horror and theater penalties. -/
def badRaw : RawEvent :=
  { baseEvent with
    title := "abc"
    category := some "concert club lecture horror theater"
    isOutdoor := some true
    ageMin := some 30
    adultPrice := some 1000 }

/-- The geocoded record on which the toddler score evaluates to -15. -/
def badEvent : GeocodedEvent :=
  { toRawEvent := badRaw
    latitude := some 51
    longitude := some 16
    distanceFromPrague := some 200 }

/-! Helper lemmas on the similarity primitives. -/

theorem levenshteinDistance_self (s : List Char) : levenshteinDistance s s = 0 := by
  induction s with
  | nil => rw [levenshteinDistance_nil_left]; rfl
  | cons x xs ih => rw [levenshteinDistance_cons_cons, if_pos rfl, ih]

theorem levenshteinDistance_comm (s t : List Char) :
    levenshteinDistance s t = levenshteinDistance t s := by
  induction s generalizing t with
  | nil => rw [levenshteinDistance_nil_left, levenshteinDistance_nil_right]
  | cons x xs ihx =>
    induction t with
    | nil => rw [levenshteinDistance_nil_left, levenshteinDistance_nil_right]
    | cons y ys ihy =>
      rw [levenshteinDistance_cons_cons, levenshteinDistance_cons_cons]
      by_cases hxy : x = y
      · rw [if_pos hxy, if_pos hxy.symm, ihx]
      · have hyx : ¬ y = x := fun h => hxy h.symm
        rw [if_neg hxy, if_neg hyx, ihx (y :: ys), ihx ys, ihy]
        omega

theorem stringSimilarity_self (s : String) : stringSimilarity s s = 1 := by
  simp [stringSimilarity, levenshteinDistance_self]

theorem stringSimilarity_comm (s t : String) :
    stringSimilarity s t = stringSimilarity t s := by
  unfold stringSimilarity
  rw [levenshteinDistance_comm, Nat.max_comm]

theorem isSameDay_self (d : JSDate) : isSameDay d d = true := by
  simp [isSameDay]

theorem isSameDay_comm (d1 d2 : JSDate) : isSameDay d1 d2 = isSameDay d2 d1 := by
  rw [isSameDay, isSameDay, decide_eq_decide]
  constructor <;> exact fun h => ⟨h.1.symm, h.2.1.symm, h.2.2.symm⟩

theorem isWithinHours_self (d : JSDate) (h : ℚ) (hh : 0 ≤ h) :
    isWithinHours d d h = true := by
  simp [isWithinHours, hh]

theorem isWithinHours_comm (d1 d2 : JSDate) (h : ℚ) :
    isWithinHours d1 d2 h = isWithinHours d2 d1 h := by
  rw [isWithinHours, isWithinHours, decide_eq_decide, abs_sub_comm]

/-! Evaluation lemmas on the concrete records. -/

theorem stringSimilarity_eval (s t : String) (n m : ℕ)
    (hd : levenshteinDistance (toLower s).toList (toLower t).toList = n)
    (hm : max s.length t.length = m) (hm0 : m ≠ 0) :
    stringSimilarity s t = 1 - (n : ℚ) / m := by
  simp only [stringSimilarity, hd, hm]
  rw [if_neg hm0]

/-- Shape of the composite score when both records lack locations and the
first lacks an adult price, with same-day starts within two hours. -/
theorem duplicateScore_eval_noloc (e1 e2 : RawEvent) (q : ℚ)
    (ht : stringSimilarity (normalizeTitle e1.title) (normalizeTitle e2.title) = q)
    (hsd : isSameDay e1.startDateTime e2.startDateTime = true)
    (hw : isWithinHours e1.startDateTime e2.startDateTime 2 = true)
    (hl1 : normalizeLocation (jsStrOr e1.locationName e1.address) = "")
    (hp1 : e1.adultPrice = none) :
    calculateDuplicateScore e1 e2 = (q * 0.4 + 0.4) / 0.8 := by
  simp only [calculateDuplicateScore, duplicateScoreCore, ht, hsd, hw, hl1, hp1]
  norm_num

theorem isWithinHours_d0 : isWithinHours d0 d0 2 = true := by
  rw [isWithinHours, decide_eq_true_eq]
  norm_num [d0]

theorem normTitle_evA : normalizeTitle evA.title = "aaaa" := by decide

theorem normTitle_evB : normalizeTitle evB.title = "aaaaabb" := by decide

theorem normTitle_evC : normalizeTitle evC.title = "aaaaa" := by decide

theorem duplicateScore_evA_evB : calculateDuplicateScore evA evB = 11/14 := by
  rw [duplicateScore_eval_noloc evA evB (4/7)
    (by
      rw [normTitle_evA, normTitle_evB,
        stringSimilarity_eval "aaaa" "aaaaabb" 3 7 (by decide) (by decide) (by decide)]
      norm_num)
    (by decide) isWithinHours_d0 (by decide) rfl]
  norm_num

theorem duplicateScore_evA_evC : calculateDuplicateScore evA evC = 9/10 := by
  rw [duplicateScore_eval_noloc evA evC (4/5)
    (by
      rw [normTitle_evA, normTitle_evC,
        stringSimilarity_eval "aaaa" "aaaaa" 1 5 (by decide) (by decide) (by decide)]
      norm_num)
    (by decide) isWithinHours_d0 (by decide) rfl]
  norm_num

/-- The record surviving the first merge of the idempotence counterexample:
the longer title of evC replaces the title of evA. -/
def evM : RawEvent := { baseEvent with source := "s1,s3", title := "aaaaa" }

theorem mergeEvents_evA_evC : mergeEvents evA evC = evM := by decide

theorem duplicateScore_evM_evB : calculateDuplicateScore evM evB = 6/7 := by
  rw [duplicateScore_eval_noloc evM evB (5/7)
    (by
      rw [show normalizeTitle evM.title = "aaaaa" from by decide, normTitle_evB,
        stringSimilarity_eval "aaaaa" "aaaaabb" 2 7 (by decide) (by decide) (by decide)]
      norm_num)
    (by decide) isWithinHours_d0 (by decide) rfl]
  norm_num

theorem isDuplicate_evA_evB : isDuplicate evA evB 0.8 = false := by
  rw [isDuplicate, duplicateScore_evA_evB]
  simp only [decide_eq_false_iff_not]
  norm_num

theorem isDuplicate_evA_evC : isDuplicate evA evC 0.8 = true := by
  rw [isDuplicate, duplicateScore_evA_evC]
  simp only [decide_eq_true_eq]
  norm_num

theorem isDuplicate_evM_evB : isDuplicate evM evB 0.8 = true := by
  rw [isDuplicate, duplicateScore_evM_evB]
  simp only [decide_eq_true_eq]
  norm_num

theorem dedup_pass1 : deduplicateEvents [evA, evB, evC] 0.8 = [evM, evB] := by
  have habs : absorbDuplicates 0.8 evA [evB, evC] = (evM, [evB]) := by
    simp only [absorbDuplicates, isDuplicate_evA_evB, isDuplicate_evA_evC,
      Bool.false_eq_true, if_false, if_true, mergeEvents_evA_evC]
  rw [deduplicateEvents_cons, habs]
  rw [deduplicateEvents_cons]
  simp only [absorbDuplicates, deduplicateEvents_nil]

theorem dedup_pass2 : deduplicateEvents [evM, evB] 0.8 = [mergeEvents evM evB] := by
  have habs : absorbDuplicates 0.8 evM [evB] = (mergeEvents evM evB, []) := by
    simp only [absorbDuplicates, isDuplicate_evM_evB, if_true]
  rw [deduplicateEvents_cons, habs, deduplicateEvents_nil]

/-! Claim C2: idempotence of deduplication. -/

/-- C2 counterexample: deduplicateEvents is not a fixed point of itself on
the three records evA, evB, evC at the default threshold 0.8. The first pass
merges evC into evA, the merged record keeps the longer title of evC, and
that title is close enough to evB for the second pass to merge the two
surviving records. -/
theorem C2_counterexample_not_idempotent :
    deduplicateEvents (deduplicateEvents [evA, evB, evC] 0.8) 0.8 ≠
      deduplicateEvents [evA, evB, evC] 0.8 := by
  rw [dedup_pass1, dedup_pass2]
  intro h
  have hlen := congrArg List.length h
  simp at hlen

theorem absorbDuplicates_of_below (t : ℚ) (x : RawEvent) (l : List RawEvent)
    (h : ∀ y ∈ l, calculateDuplicateScore x y < t) :
    absorbDuplicates t x l = (x, l) := by
  induction l with
  | nil => rfl
  | cons y ys ih =>
    have hxy : isDuplicate x y t = false := by
      rw [isDuplicate, decide_eq_false_iff_not]
      exact not_le.mpr (h y (List.mem_cons_self y ys))
    simp only [absorbDuplicates, hxy, Bool.false_eq_true, if_false]
    rw [ih (fun z hz => h z (List.mem_cons_of_mem y hz))]

/-- C2, amended: deduplication is a fixed point on a list in which every
ordered pair of records scores strictly below the threshold; the output of
deduplicateEvents itself need not be such a list, so idempotence fails in
general (see the counterexample). -/
theorem C2_dedup_fixed_point (l : List RawEvent) (t : ℚ)
    (h : l.Pairwise (fun a b => calculateDuplicateScore a b < t)) :
    deduplicateEvents l t = l := by
  induction l with
  | nil => rfl
  | cons x rest ih =>
    rw [deduplicateEvents_cons,
      absorbDuplicates_of_below t x rest (List.pairwise_cons.mp h).1]
    simp only
    rw [ih ((List.pairwise_cons.mp h).2)]

/-- Witness for C2: the records evA and evB score 11/14 < 0.8, and
deduplication leaves the pair unchanged. -/
theorem C2_dedup_fixed_point_witness :
    ([evA, evB].Pairwise (fun a b => calculateDuplicateScore a b < 0.8)) ∧
      deduplicateEvents [evA, evB] 0.8 = [evA, evB] := by
  have hp : ([evA, evB].Pairwise (fun a b => calculateDuplicateScore a b < 0.8)) := by
    refine List.Pairwise.cons ?_ (List.pairwise_singleton _ _)
    intro y hy
    rw [List.mem_singleton] at hy
    subst hy
    rw [duplicateScore_evA_evB]
    norm_num
  exact ⟨hp, C2_dedup_fixed_point [evA, evB] 0.8 hp⟩

/-! Claim C3: the composite duplicate score as a weighted quotient. -/

/-- Price similarity sub-score in the exact words of the claim: 1 minus
|Δprice| / avgPrice, with full credit when both records are free. -/
def claimPriceSubScore (p1 p2 : ℚ) : ℚ :=
  if (p1 + p2) / 2 > 0 then 1 - |p1 - p2| / ((p1 + p2) / 2) else 1

/-- Price similarity sub-score with the clamp the source applies: the ratio
is capped at 1 before subtraction, so the sub-score never goes below 0. -/
def clampedPriceSubScore (p1 p2 : ℚ) : ℚ :=
  if (p1 + p2) / 2 > 0 then 1 - min 1 (|p1 - p2| / ((p1 + p2) / 2)) else 1

/-- The applied weighted factors of the composite score, per the claim:
title always at 0.4; the same-day indicator always at 0.3; the extra 0.1
time bonus only when the starts share a day and lie within two hours;
location at 0.2 only when both locations are present; price at 0.1 only
when both adult prices are present, with a pluggable price sub-score. -/
def claimAppliedFactors (priceSub : ℚ → ℚ → ℚ) (e1 e2 : RawEvent) : List (ℚ × ℚ) :=
  let location1 := normalizeLocation (jsStrOr e1.locationName e1.address)
  let location2 := normalizeLocation (jsStrOr e2.locationName e2.address)
  [((0.4 : ℚ), stringSimilarity (normalizeTitle e1.title) (normalizeTitle e2.title)),
   ((0.3 : ℚ), if isSameDay e1.startDateTime e2.startDateTime then (1 : ℚ) else 0)]
  ++ (if isSameDay e1.startDateTime e2.startDateTime ∧
        isWithinHours e1.startDateTime e2.startDateTime 2
      then [((0.1 : ℚ), (1 : ℚ))] else [])
  ++ (if location1 ≠ "" ∧ location2 ≠ ""
      then [((0.2 : ℚ), stringSimilarity location1 location2)] else [])
  ++ (if e1.adultPrice.isSome ∧ e2.adultPrice.isSome
      then [((0.1 : ℚ), priceSub (e1.adultPrice.getD 0) (e2.adultPrice.getD 0))] else [])

/-- The weighted sum of the sub-scores divided by the sum of the weights,
over a list of weight and sub-score pairs. -/
def weightedQuotient (fs : List (ℚ × ℚ)) : ℚ :=
  (fs.map fun p => p.1 * p.2).sum / (fs.map fun p => p.1).sum

/-- The composite score per the claim: the weighted sum of the applied
sub-scores divided by the sum of the weights actually applied. -/
def claimComposite (priceSub : ℚ → ℚ → ℚ) (e1 e2 : RawEvent) : ℚ :=
  weightedQuotient (claimAppliedFactors priceSub e1 e2)

theorem duplicateScore_eval_price (e1 e2 : RawEvent) (q p1 p2 : ℚ)
    (ht : stringSimilarity (normalizeTitle e1.title) (normalizeTitle e2.title) = q)
    (hsd : isSameDay e1.startDateTime e2.startDateTime = true)
    (hw : isWithinHours e1.startDateTime e2.startDateTime 2 = true)
    (hl1 : normalizeLocation (jsStrOr e1.locationName e1.address) = "")
    (hp1 : e1.adultPrice = some p1) (hp2 : e2.adultPrice = some p2) :
    calculateDuplicateScore e1 e2 =
      (q * 0.4 + 0.4 +
        (if (p1 + p2) / 2 > 0 then (1 - min 1 (|p1 - p2| / ((p1 + p2) / 2))) * 0.1
         else 0.1)) / 0.9 := by
  simp only [calculateDuplicateScore, duplicateScoreCore, ht, hsd, hw, hl1, hp1, hp2]
  norm_num

theorem duplicateScore_ce1_ce2 : calculateDuplicateScore ce1 ce2 = 8/9 := by
  rw [duplicateScore_eval_price ce1 ce2 1 0 10
    (by
      rw [show normalizeTitle ce1.title = normalizeTitle ce2.title from by decide,
        stringSimilarity_self])
    (by decide) isWithinHours_d0 (by decide) rfl rfl]
  have habs : |(0 : ℚ) - 10| = 10 := by
    rw [zero_sub, abs_neg]
    norm_num
  rw [habs]
  norm_num

theorem claimComposite_ce1_ce2 : claimComposite claimPriceSubScore ce1 ce2 = 7/9 := by
  have ht : stringSimilarity (normalizeTitle ce1.title) (normalizeTitle ce2.title) = 1 := by
    rw [show normalizeTitle ce1.title = normalizeTitle ce2.title from by decide,
      stringSimilarity_self]
  have hsd : isSameDay ce1.startDateTime ce2.startDateTime = true := by decide
  have hw : isWithinHours ce1.startDateTime ce2.startDateTime 2 = true := isWithinHours_d0
  have hl1 : normalizeLocation (jsStrOr ce1.locationName ce1.address) = "" := by decide
  have habs : |(0 : ℚ) - 10| = 10 := by
    rw [zero_sub, abs_neg]
    norm_num
  simp only [claimComposite, claimAppliedFactors, claimPriceSubScore, ht, hsd, hw, hl1,
    show ce1.adultPrice = some 0 from rfl, show ce2.adultPrice = some 10 from rfl,
    Option.getD_some, habs]
  norm_num [weightedQuotient]

/-- C3 counterexample: with adult prices 0 and 10, the source clamps the
price ratio at 1 (sub-score 0) while the claim formula yields -1, so the
composite score of the code, 8/9, differs from the claim value 7/9. -/
theorem C3_counterexample_price_subscore :
    calculateDuplicateScore ce1 ce2 ≠ claimComposite claimPriceSubScore ce1 ce2 := by
  rw [duplicateScore_ce1_ce2, claimComposite_ce1_ce2]
  norm_num

/-- The running score and weight accumulation of the source equals the
weighted-sum-over-applied-factors quotient, abstracted over the pairwise
observations. -/
theorem duplicateScoreCore_eq_quotient (t : ℚ) (sd w lApp : Bool) (lSim : ℚ)
    (pApp : Bool) (pd avg : ℚ) :
    duplicateScoreCore t sd w lApp lSim pApp pd avg =
      weightedQuotient ([((0.4 : ℚ), t), ((0.3 : ℚ), if sd then (1 : ℚ) else 0)]
        ++ (if sd ∧ w then [((0.1 : ℚ), (1 : ℚ))] else [])
        ++ (if lApp then [((0.2 : ℚ), lSim)] else [])
        ++ (if pApp then [((0.1 : ℚ), if avg > 0 then 1 - min 1 (pd / avg) else 1)]
            else [])) := by
  cases sd <;> cases w <;> cases lApp <;> cases pApp <;>
    by_cases havg : avg > 0 <;>
    simp [duplicateScoreCore, weightedQuotient, havg] <;>
    norm_num <;>
    ring_nf

/-- C3, amended: for every pair of records the composite duplicate score
equals the weighted sum of the applied sub-scores divided by the sum of the
weights actually applied, with the price sub-score 1 minus
min(1, |Δprice| / avgPrice) — clamped below at 0 — and full credit when both
records are free. -/
theorem C3_composite_weighted_quotient (e1 e2 : RawEvent) :
    calculateDuplicateScore e1 e2 = claimComposite clampedPriceSubScore e1 e2 := by
  unfold calculateDuplicateScore claimComposite claimAppliedFactors clampedPriceSubScore
  rw [duplicateScoreCore_eq_quotient]
  simp only [Bool.and_eq_true, decide_eq_true_eq]


/-! Claim C4: symmetry and reflexivity of the duplicate similarity. -/

/-- C4: the duplicate similarity is symmetric in its two records, and any
record with a non-empty title is similar to itself at full credit 1.0. -/
theorem C4_similarity_symm_refl :
    (∀ e1 e2 : RawEvent,
      calculateDuplicateScore e1 e2 = calculateDuplicateScore e2 e1) ∧
    (∀ e : RawEvent, e.title ≠ "" → calculateDuplicateScore e e = 1) := by
  constructor
  · intro e1 e2
    simp only [calculateDuplicateScore]
    rw [stringSimilarity_comm, isSameDay_comm, isWithinHours_comm,
      stringSimilarity_comm (normalizeLocation (jsStrOr e1.locationName e1.address)),
      Bool.and_comm (decide (normalizeLocation (jsStrOr e1.locationName e1.address) ≠ "")),
      Bool.and_comm e1.adultPrice.isSome,
      abs_sub_comm (e1.adultPrice.getD 0),
      add_comm (e1.adultPrice.getD 0)]
  · intro e _he
    simp only [calculateDuplicateScore]
    rw [stringSimilarity_self, stringSimilarity_self, isSameDay_self,
      isWithinHours_self e.startDateTime 2 (by norm_num)]
    simp only [Bool.and_self]
    cases hl : decide (normalizeLocation (jsStrOr e.locationName e.address) ≠ "") <;>
      cases hp : e.adultPrice.isSome <;>
      by_cases havg : (e.adultPrice.getD 0 + e.adultPrice.getD 0) / 2 > 0 <;>
      simp [duplicateScoreCore, hl, hp, havg, sub_self, abs_zero, zero_div] <;>
      norm_num

/-- Witness for C4 at the records ce1 and ce2. -/
theorem C4_similarity_symm_refl_witness :
    calculateDuplicateScore ce1 ce2 = calculateDuplicateScore ce2 ce1 ∧
      calculateDuplicateScore ce1 ce1 = 1 :=
  ⟨C4_similarity_symm_refl.1 ce1 ce2, C4_similarity_symm_refl.2 ce1 (by decide)⟩


/-! Claim C5: the merge policy, field by field. -/

/-- Length of an optional string, 0 when absent. -/
def optStrLen (s : Option String) : ℕ := (s.getD "").length

theorem truthyStr_none : truthyStr none = false := rfl

theorem truthyNum_none : truthyNum none = false := by
  simp [truthyNum]

/-- The merged description is one of the two inputs and has the larger
length; an empty-string description behaves like an absent one. -/
theorem mergeEvents_description_spec (a b : RawEvent) :
    ((mergeEvents a b).description = a.description ∨
      (mergeEvents a b).description = b.description) ∧
    optStrLen (mergeEvents a b).description =
      max (optStrLen a.description) (optStrLen b.description) := by
  cases ha : a.description with
  | none =>
    constructor
    · right
      simp [mergeEvents, ha, truthyStr_none]
    · simp [mergeEvents, ha, truthyStr_none, optStrLen]
  | some sa =>
    cases hb : b.description with
    | none =>
      by_cases hsa : sa = ""
      · subst hsa
        constructor
        · right
          simp [mergeEvents, ha, hb, truthyStr]
        · simp [mergeEvents, ha, hb, truthyStr, optStrLen]
      · constructor
        · left
          simp [mergeEvents, ha, hb, truthyStr, hsa, truthyStr_none]
        · simp [mergeEvents, ha, hb, truthyStr, hsa, truthyStr_none, optStrLen]
    | some sb =>
      by_cases hsa : sa = ""
      · subst hsa
        constructor
        · right
          simp [mergeEvents, ha, hb, truthyStr]
        · simp [mergeEvents, ha, hb, truthyStr, optStrLen]
      · by_cases hsb : sb = ""
        · subst hsb
          constructor
          · left
            simp [mergeEvents, ha, hb, truthyStr, hsa]
          · simp [mergeEvents, ha, hb, truthyStr, hsa, optStrLen]
        · by_cases hlen : sa.length < sb.length
          · constructor
            · right
              simp [mergeEvents, ha, hb, truthyStr, hsa, hsb, hlen]
            · simp [mergeEvents, ha, hb, truthyStr, hsa, hsb, hlen, optStrLen]
              omega
          · constructor
            · left
              simp [mergeEvents, ha, hb, truthyStr, hsa, hsb, hlen]
            · simp [mergeEvents, ha, hb, truthyStr, hsa, hsb, hlen, optStrLen]
              omega

/-- C5: mergeEvents keeps the externalId and startDateTime of the first
record, concatenates sources, keeps the longer title and description, keeps
whichever endDateTime, durationMinutes and imageUrl is defined, prefers the
location fields and bookingUrl of the first record, intersects the age
range, takes the minimum of each price field both records specify, and ors
the outdoor flags. The hypotheses record the data-model invariants: a
positive duration and no empty-string optional fields (the scrapers store
empty extractions as undefined). -/
theorem C5_merge_policy (a b : RawEvent)
    (ha1 : a.durationMinutes ≠ some 0) (ha2 : a.imageUrl ≠ some "")
    (ha3 : a.bookingUrl ≠ some "") (ha4 : a.locationName ≠ some "")
    (ha5 : a.address ≠ some "") :
    (mergeEvents a b).externalId = a.externalId ∧
    (mergeEvents a b).source = a.source ++ "," ++ b.source ∧
    ((mergeEvents a b).title = a.title ∨ (mergeEvents a b).title = b.title) ∧
    (mergeEvents a b).title.length = max a.title.length b.title.length ∧
    ((mergeEvents a b).description = a.description ∨
      (mergeEvents a b).description = b.description) ∧
    optStrLen (mergeEvents a b).description =
      max (optStrLen a.description) (optStrLen b.description) ∧
    (mergeEvents a b).startDateTime = a.startDateTime ∧
    ((mergeEvents a b).endDateTime = a.endDateTime ∨
      (mergeEvents a b).endDateTime = b.endDateTime) ∧
    ((mergeEvents a b).endDateTime.isSome ↔
      (a.endDateTime.isSome ∨ b.endDateTime.isSome)) ∧
    (if a.locationName.isSome then (mergeEvents a b).locationName = a.locationName
     else (mergeEvents a b).locationName = b.locationName) ∧
    (if a.address.isSome then (mergeEvents a b).address = a.address
     else (mergeEvents a b).address = b.address) ∧
    (∀ x y : ℚ, a.ageMin = some x → b.ageMin = some y →
      (mergeEvents a b).ageMin = some (max x y)) ∧
    (∀ x y : ℚ, a.ageMax = some x → b.ageMax = some y →
      (mergeEvents a b).ageMax = some (min x y)) ∧
    (∀ x y : ℚ, a.adultPrice = some x → b.adultPrice = some y →
      (mergeEvents a b).adultPrice = some (min x y)) ∧
    (∀ x y : ℚ, a.childPrice = some x → b.childPrice = some y →
      (mergeEvents a b).childPrice = some (min x y)) ∧
    (∀ x y : ℚ, a.familyPrice = some x → b.familyPrice = some y →
      (mergeEvents a b).familyPrice = some (min x y)) ∧
    ((mergeEvents a b).isOutdoor = some true ↔
      (a.isOutdoor = some true ∨ b.isOutdoor = some true)) ∧
    ((mergeEvents a b).durationMinutes = a.durationMinutes ∨
      (mergeEvents a b).durationMinutes = b.durationMinutes) ∧
    ((mergeEvents a b).durationMinutes.isSome ↔
      (a.durationMinutes.isSome ∨ b.durationMinutes.isSome)) ∧
    ((mergeEvents a b).imageUrl = a.imageUrl ∨ (mergeEvents a b).imageUrl = b.imageUrl) ∧
    ((mergeEvents a b).imageUrl.isSome ↔ (a.imageUrl.isSome ∨ b.imageUrl.isSome)) ∧
    (if a.bookingUrl.isSome then (mergeEvents a b).bookingUrl = a.bookingUrl
     else (mergeEvents a b).bookingUrl = b.bookingUrl) := by
  refine ⟨rfl, rfl, ?_, ?_, (mergeEvents_description_spec a b).1,
    (mergeEvents_description_spec a b).2, rfl, ?_, ?_, ?_, ?_, ?_, ?_, ?_, ?_, ?_,
    ?_, ?_, ?_, ?_, ?_, ?_⟩
  · by_cases h : a.title.length > b.title.length
    · left
      simp [mergeEvents, h]
    · right
      simp [mergeEvents, h]
  · by_cases h : a.title.length > b.title.length <;> simp [mergeEvents, h] <;> omega
  · cases h : a.endDateTime with
    | none => right; simp [mergeEvents, h]
    | some d => left; simp [mergeEvents, h]
  · cases h : a.endDateTime <;> simp [mergeEvents, h]
  · cases h : a.locationName with
    | none => simp [mergeEvents, jsStrOr, h, truthyStr_none]
    | some s =>
      have hs : s ≠ "" := fun hc => ha4 (by rw [h, hc])
      simp [mergeEvents, jsStrOr, h, truthyStr, hs]
  · cases h : a.address with
    | none => simp [mergeEvents, jsStrOr, h, truthyStr_none]
    | some s =>
      have hs : s ≠ "" := fun hc => ha5 (by rw [h, hc])
      simp [mergeEvents, jsStrOr, h, truthyStr, hs]
  · intro x y hx hy
    simp [mergeEvents, hx, hy]
  · intro x y hx hy
    simp [mergeEvents, hx, hy]
  · intro x y hx hy
    simp [mergeEvents, hx, hy]
  · intro x y hx hy
    simp [mergeEvents, hx, hy]
  · intro x y hx hy
    simp [mergeEvents, hx, hy]
  · by_cases h : a.isOutdoor = some true <;> simp [mergeEvents, jsBoolOr, h]
  · cases h : a.durationMinutes with
    | none => right; simp [mergeEvents, jsNumOr, h, truthyNum_none]
    | some q =>
      have hq : q ≠ 0 := fun hc => ha1 (by rw [h, hc])
      left
      simp [mergeEvents, jsNumOr, h, truthyNum, hq]
  · cases h : a.durationMinutes with
    | none => simp [mergeEvents, jsNumOr, h, truthyNum_none]
    | some q =>
      have hq : q ≠ 0 := fun hc => ha1 (by rw [h, hc])
      simp [mergeEvents, jsNumOr, h, truthyNum, hq]
  · cases h : a.imageUrl with
    | none => right; simp [mergeEvents, jsStrOr, h, truthyStr_none]
    | some s =>
      have hs : s ≠ "" := fun hc => ha2 (by rw [h, hc])
      left
      simp [mergeEvents, jsStrOr, h, truthyStr, hs]
  · cases h : a.imageUrl with
    | none => simp [mergeEvents, jsStrOr, h, truthyStr_none]
    | some s =>
      have hs : s ≠ "" := fun hc => ha2 (by rw [h, hc])
      simp [mergeEvents, jsStrOr, h, truthyStr, hs]
  · cases h : a.bookingUrl with
    | none => simp [mergeEvents, jsStrOr, h, truthyStr_none]
    | some s =>
      have hs : s ≠ "" := fun hc => ha3 (by rw [h, hc])
      simp [mergeEvents, jsStrOr, h, truthyStr, hs]

/-- Witness for C5 at the records ce1 and ce2. -/
theorem C5_merge_policy_witness : (mergeEvents ce1 ce2).externalId = ce1.externalId :=
  (C5_merge_policy ce1 ce2 (by decide) (by decide) (by decide) (by decide) (by decide)).1


/-! Claims C6 and C7: the spatial filter. -/

theorem processEvents_mem (g : Geocoder) (l : List RawEvent) (e : RawEvent)
    (ge : GeocodedEvent) (he : e ∈ l) (hone : processOne g e = some ge) :
    ge ∈ processEvents g l := by
  induction l with
  | nil => cases he
  | cons x rest ih =>
    rcases List.mem_cons.mp he with rfl | hmem
    · simp only [processEvents, hone]
      exact List.mem_cons_self _ _
    · cases hx : processOne g x with
      | none =>
        simp only [processEvents, hx]
        exact ih hmem
      | some gx =>
        simp only [processEvents, hx]
        exact List.mem_cons_of_mem _ (ih hmem)

theorem processOne_distance_bound (g : Geocoder) (x : RawEvent) (gx : GeocodedEvent)
    (h : processOne g x = some gx) :
    gx.distanceFromPrague = none ∨
      ∃ d : ℚ, gx.distanceFromPrague = some d ∧ d ≤ 130 := by
  unfold processOne at h
  split at h
  · cases h
  · split at h
    · cases h
      left
      rfl
    · split at h
      · cases h
      · cases h
        right
        exact ⟨_, rfl, le_of_not_lt (by assumption)⟩

theorem processEvents_distance_bound (g : Geocoder) (l : List RawEvent)
    (o : GeocodedEvent) (ho : o ∈ processEvents g l) :
    o.distanceFromPrague = none ∨
      ∃ d : ℚ, o.distanceFromPrague = some d ∧ d ≤ 130 := by
  induction l with
  | nil => cases ho
  | cons x rest ih =>
    cases hx : processOne g x with
    | none =>
      simp only [processEvents, hx] at ho
      exact ih ho
    | some gx =>
      simp only [processEvents, hx] at ho
      rcases List.mem_cons.mp ho with rfl | hmem
      · exact processOne_distance_bound g x o hx
      · exact ih hmem

/-- C6: for a record whose resolution succeeds, the spatial filter drops it
when the distance exceeds 130 km — the geocoded record appears nowhere in
the output — and keeps it when the distance is exactly 130 km (the boundary
is inclusive). -/
theorem C6_radius_boundary (g : Geocoder) (l : List RawEvent) (e : RawEvent)
    (r : GeoResult) (hloc : truthyStr e.address ∨ truthyStr e.locationName)
    (hres : g (effectiveAddress e) = some r) :
    (130 < r.distanceFromPrague →
      processOne g e = none ∧ withCoords e r ∉ processEvents g l) ∧
    (r.distanceFromPrague = 130 →
      processOne g e = some (withCoords e r) ∧
        (e ∈ l → withCoords e r ∈ processEvents g l)) := by
  have hcond : ¬ (¬ truthyStr e.address ∧ ¬ truthyStr e.locationName) := by
    tauto
  constructor
  · intro hd
    have h1 : processOne g e = none := by
      unfold processOne
      rw [if_neg hcond, hres]
      show (if r.distanceFromPrague > 130 then none
        else some (withCoords e r)) = none
      rw [if_pos hd]
    refine ⟨h1, fun hmem => ?_⟩
    rcases processEvents_distance_bound g l _ hmem with hnone | ⟨d, hd', hle⟩
    · simp [withCoords] at hnone
    · simp only [withCoords] at hd'
      rw [Option.some_inj.mp hd'] at hd
      exact absurd hd (not_lt.mpr hle)
  · intro hd
    have h1 : processOne g e = some (withCoords e r) := by
      unfold processOne
      rw [if_neg hcond, hres]
      show (if r.distanceFromPrague > 130 then none
        else some (withCoords e r)) = some (withCoords e r)
      rw [if_neg (by rw [hd]; norm_num)]
    exact ⟨h1, fun hm => processEvents_mem g l e _ hm h1⟩

/-- C7: a record lacking both address and location name is dropped before
any resolution is attempted — for every geocoder — and a record whose
resolution fails is kept in the output without coordinates. -/
theorem C7_fail_open (g : Geocoder) (l : List RawEvent) (e : RawEvent) :
    ((¬ truthyStr e.address ∧ ¬ truthyStr e.locationName) → processOne g e = none) ∧
    ((truthyStr e.address ∨ truthyStr e.locationName) →
      g (effectiveAddress e) = none →
      processOne g e = some (toGeocoded e) ∧
        (toGeocoded e).distanceFromPrague = none ∧
        (e ∈ l → toGeocoded e ∈ processEvents g l)) := by
  constructor
  · intro h
    unfold processOne
    rw [if_pos h]
  · intro hloc hres
    have hcond : ¬ (¬ truthyStr e.address ∧ ¬ truthyStr e.locationName) := by
      tauto
    have h1 : processOne g e = some (toGeocoded e) := by
      unfold processOne
      rw [if_neg hcond, hres]
    exact ⟨h1, rfl, fun hm => processEvents_mem g l e _ hm h1⟩

/-- A concrete geocoder for the witnesses: one address beyond the radius,
one exactly on it, everything else unresolved. -/
def gWitness : Geocoder := fun s =>
  if s = "Brno" then some ⟨49, 16, 180⟩
  else if s = "Letna" then some ⟨50, 14, 130⟩
  else none

/-- A record resolving 180 km away. -/
def evFar : RawEvent := { baseEvent with externalId := "far", address := some "Brno" }

/-- A record resolving exactly 130 km away. -/
def evEdge : RawEvent := { baseEvent with externalId := "edge", address := some "Letna" }

/-- A record whose address resolves to nothing. -/
def evMiss : RawEvent := { baseEvent with externalId := "miss", address := some "Nowhere" }

/-- Witness for C6: the too-far record is dropped, the boundary record is
kept with its coordinates. -/
theorem C6_radius_boundary_witness :
    processOne gWitness evFar = none ∧
      processOne gWitness evEdge = some (withCoords evEdge ⟨50, 14, 130⟩) ∧
      withCoords evEdge ⟨50, 14, 130⟩ ∈ processEvents gWitness [evFar, evEdge] := by
  have h1 := (C6_radius_boundary gWitness [evFar, evEdge] evFar ⟨49, 16, 180⟩
    (Or.inl (by decide)) (by decide)).1 (by norm_num)
  have h2 := (C6_radius_boundary gWitness [evFar, evEdge] evEdge ⟨50, 14, 130⟩
    (Or.inl (by decide)) (by decide)).2 rfl
  exact ⟨h1.1, h2.1, h2.2 (by simp)⟩

/-- Witness for C7: the record with no location is dropped under every
geocoder, the unresolved record is kept without coordinates. -/
theorem C7_fail_open_witness :
    processOne gWitness baseEvent = none ∧
      processOne gWitness evMiss = some (toGeocoded evMiss) := by
  have h1 := (C7_fail_open gWitness [] baseEvent).1 (by decide)
  have h2 := ((C7_fail_open gWitness [] evMiss).2 (Or.inl (by decide)) (by decide)).1
  exact ⟨h1, h2⟩


/-! Claim C8: the data-completeness multiplier. -/

/-- The weighted presence of the six optional signals, in the words of the
claim: age range known (weight 2), distance known (2), any price known (1),
duration known (1), description longer than 50 characters (1), image
present (1). -/
def claimCompletenessWeight (e : GeocodedEvent) : ℚ :=
  (if e.ageMin.isSome ∧ e.ageMax.isSome then 2 else 0)
  + (if e.distanceFromPrague.isSome then 2 else 0)
  + (if e.adultPrice.isSome ∨ e.childPrice.isSome ∨ e.familyPrice.isSome then 1 else 0)
  + (if e.durationMinutes.isSome then 1 else 0)
  + (if (e.description.getD "").length > 50 then 1 else 0)
  + (if truthyStr e.imageUrl then 1 else 0)

/-- None of the six optional signals of the claim is present. -/
def claimNonePresent (e : GeocodedEvent) : Prop :=
  ¬ (e.ageMin.isSome ∧ e.ageMax.isSome) ∧ ¬ e.distanceFromPrague.isSome = true ∧
  ¬ (e.adultPrice.isSome ∨ e.childPrice.isSome ∨ e.familyPrice.isSome) ∧
  ¬ e.durationMinutes.isSome = true ∧ ¬ (e.description.getD "").length > 50 ∧
  ¬ truthyStr e.imageUrl = true

/-- All six optional signals of the claim are present. -/
def claimAllPresent (e : GeocodedEvent) : Prop :=
  (e.ageMin.isSome ∧ e.ageMax.isSome) ∧ e.distanceFromPrague.isSome = true ∧
  (e.adultPrice.isSome ∨ e.childPrice.isSome ∨ e.familyPrice.isSome) ∧
  e.durationMinutes.isSome = true ∧ (e.description.getD "").length > 50 ∧
  truthyStr e.imageUrl = true

/-- C8: the completeness multiplier is 0.7 plus 0.3 times the weighted
fraction of present optional fields out of the total weight 8; it is exactly
0.7 when none is present and exactly 1.0 when all are present. -/
theorem C8_completeness_multiplier (e : GeocodedEvent) :
    calculateDataCompletenessMultiplier e =
      0.7 + 0.3 * (claimCompletenessWeight e / 8) ∧
    (claimNonePresent e → calculateDataCompletenessMultiplier e = 0.7) ∧
    (claimAllPresent e → calculateDataCompletenessMultiplier e = 1) := by
  refine ⟨?_, ?_, ?_⟩
  · simp only [calculateDataCompletenessMultiplier, claimCompletenessWeight]
    ring
  · intro h
    obtain ⟨h1, h2, h3, h4, h5, h6⟩ := h
    simp only [calculateDataCompletenessMultiplier, if_neg h1, if_neg h2, if_neg h3,
      if_neg h4, if_neg h5, if_neg h6]
    norm_num
  · intro h
    obtain ⟨h1, h2, h3, h4, h5, h6⟩ := h
    simp only [calculateDataCompletenessMultiplier, if_pos h1, if_pos h2, if_pos h3,
      if_pos h4, if_pos h5, if_pos h6]
    norm_num

/-- A record with every optional-weighted field present. -/
def fullEvent : GeocodedEvent :=
  { toRawEvent :=
      { baseEvent with
        description :=
          some "a long description string that goes well past fifty characters"
        ageMin := some 3
        ageMax := some 6
        adultPrice := some 0
        durationMinutes := some 45
        imageUrl := some "https://example.org/image.png" }
    latitude := some 50
    longitude := some 14
    distanceFromPrague := some 5 }

/-- Witness for C8: the fully specified record reaches multiplier 1 and the
bare record stays at 0.7. -/
theorem C8_completeness_multiplier_witness :
    calculateDataCompletenessMultiplier fullEvent = 1 :=
  (C8_completeness_multiplier fullEvent).2.2 (by unfold claimAllPresent; decide)

/-! Claim C9: archival of stale records. -/

/-- C9: archiveOldEvents removes exactly the persisted records whose start
time lies more than 30 days before the current time, keeps every record at
most 30 days old, and introduces or modifies nothing. -/
theorem C9_archive_cutoff (now : ℤ) (store : List ScoredEvent) (ev : ScoredEvent) :
    (ev ∈ store → 30 * msPerDay < now - ev.startDateTime.time →
      ev ∉ archiveOldEvents now store) ∧
    (ev ∈ store → now - ev.startDateTime.time ≤ 30 * msPerDay →
      ev ∈ archiveOldEvents now store) ∧
    (ev ∈ archiveOldEvents now store → ev ∈ store) := by
  unfold archiveOldEvents deleteStartingBefore
  refine ⟨?_, ?_, ?_⟩
  · intro _ hold hmem
    have hcond := (List.mem_filter.mp hmem).2
    simp only [decide_eq_true_eq] at hcond
    omega
  · intro hm hle
    refine List.mem_filter.mpr ⟨hm, ?_⟩
    simp only [decide_eq_true_eq]
    omega
  · intro hmem
    exact (List.mem_filter.mp hmem).1

/-- A persisted record starting at the epoch, long stale. -/
def oldScored : ScoredEvent :=
  { toRawEvent := { baseEvent with startDateTime := ⟨0, 1970, 0, 1, 0, 4⟩ }
    latitude := none
    longitude := none
    distanceFromPrague := none
    scoreToddler := 50
    scoreChild := 50
    scoreFamily := 50 }

/-- A persisted record starting at the run time itself. -/
def newScored : ScoredEvent :=
  { toRawEvent := { baseEvent with startDateTime := dSat }
    latitude := none
    longitude := none
    distanceFromPrague := none
    scoreToddler := 50
    scoreChild := 50
    scoreFamily := 50 }

/-- Witness for C9: at the run time of dSat, the epoch record is deleted
and the fresh record is kept. -/
theorem C9_archive_cutoff_witness :
    oldScored ∉ archiveOldEvents dSat.time [oldScored, newScored] ∧
      newScored ∈ archiveOldEvents dSat.time [oldScored, newScored] :=
  ⟨(C9_archive_cutoff dSat.time [oldScored, newScored] oldScored).1
      (by simp) (by decide),
    (C9_archive_cutoff dSat.time [oldScored, newScored] newScored).2.1
      (by simp) (by decide)⟩

/-! Claim C10: a zero distance scores like a missing one. -/

/-- C10: for a record at exactly the origin, distanceFromOrigin 0 is falsy,
so the distance factor returns the unknown-distance penalty 3 and not the
15 points of the under-10-km band. -/
theorem C10_zero_distance (e : GeocodedEvent) (h : e.distanceFromPrague = some 0) :
    calculateDistanceScore e.distanceFromPrague = 3 ∧
      calculateDistanceScore e.distanceFromPrague ≠ 15 := by
  have h3 : calculateDistanceScore (some 0) = 3 := by
    simp [calculateDistanceScore, truthyNum]
  rw [h]
  exact ⟨h3, by rw [h3]; norm_num⟩

/-- A record located exactly at the origin coordinate. -/
def zeroDistEvent : GeocodedEvent :=
  { toRawEvent := baseEvent
    latitude := some 50
    longitude := some 14
    distanceFromPrague := some 0 }

/-- Witness for C10 at a concrete record with distance 0. -/
theorem C10_zero_distance_witness :
    calculateDistanceScore zeroDistEvent.distanceFromPrague = 3 :=
  (C10_zero_distance zeroDistEvent rfl).1


/-! Claim C1: the advertised score range 0 to 100. -/

/-- The category string of badEvent, hitting every toddler penalty. -/
def cbad : String := "concert club lecture horror theater"

theorem eventType_badEvent :
    calculateEventTypeScore (some cbad) (some true) AgeGroup.toddler
      (some badWeather) = -73 := by
  have hcat : toLower ((some cbad).getD "") = cbad := by decide
  simp only [calculateEventTypeScore, hcat,
    show truthyStr (some cbad) = true from by decide,
    show jsIncludes cbad "concert" = true from by decide,
    show jsIncludes cbad "kids" = false from by decide,
    show jsIncludes cbad "children" = false from by decide,
    show jsIncludes cbad "club" = true from by decide,
    show jsIncludes cbad "lecture" = true from by decide,
    show jsIncludes cbad "horror" = true from by decide,
    show jsIncludes cbad "museum" = false from by decide,
    show jsIncludes cbad "educational" = false from by decide,
    show jsIncludes cbad "workshop" = false from by decide,
    show jsIncludes cbad "interactive" = false from by decide,
    show jsIncludes cbad "sport" = false from by decide,
    show jsIncludes cbad "playground" = false from by decide,
    show jsIncludes cbad "soft play" = false from by decide,
    show jsIncludes cbad "puppet" = false from by decide,
    show jsIncludes cbad "petting zoo" = false from by decide,
    show jsIncludes cbad "farm" = false from by decide,
    show jsIncludes cbad "animals" = false from by decide,
    show jsIncludes cbad "music" = false from by decide,
    show jsIncludes cbad "sensory" = false from by decide,
    show jsIncludes cbad "theater" = true from by decide,
    show weatherGood (some badWeather) = false from by decide]
  norm_num [min_def]

theorem seasonality_abc : calculateSeasonalityScore "abc" none (some d0) = 0 := by
  have hany : (seasonalKeywords.any fun keyword =>
      jsIncludes (toLower ("abc" ++ " " ++ (none : Option String).getD "")) keyword)
        = false := by decide
  simp only [calculateSeasonalityScore, hany, Bool.false_eq_true, if_false,
    show d0.month = 4 from rfl]
  norm_num

/-- C1 (exhibit of the violation): on badEvent with unfavorable weather the
toddler score evaluates to -15, outside the advertised range 0 to 100. The
event-type factor reaches -73 because its keyword penalties are clamped
only from above, contradicting the documented bounds. -/
theorem C1_negative_score :
    (scoreEvent badEvent AgeGroup.toddler (some badWeather)).score = -15 ∧
      (scoreEvent badEvent AgeGroup.toddler (some badWeather)).score < 0 := by
  have hage : calculateAgeScore (some 30) none (some 2) AgeGroup.toddler = 0 := by
    norm_num [calculateAgeScore, truthyNum]
  have hdist : calculateDistanceScore (some 200) = 0 := by
    norm_num [calculateDistanceScore, truthyNum]
  have hprice : calculatePriceScore (some 1000) none none = 2 := by
    norm_num [calculatePriceScore, truthyNum]
  have htiming : calculateTimingScore d0 AgeGroup.toddler = 0 := by
    norm_num [calculateTimingScore, min_def,
      show d0.dayOfWeek = 2 from rfl, show d0.hours = 20 from rfl]
  have hdur : calculateDurationScore none AgeGroup.toddler = 2 := by
    norm_num [calculateDurationScore, truthyNum]
  have hmult : calculateDataCompletenessMultiplier badEvent = 13/16 := by
    simp only [calculateDataCompletenessMultiplier,
      show badEvent.ageMin = some 30 from rfl,
      show badEvent.ageMax = (none : Option ℚ) from rfl,
      show badEvent.distanceFromPrague = some 200 from rfl,
      show badEvent.adultPrice = some 1000 from rfl,
      show badEvent.childPrice = (none : Option ℚ) from rfl,
      show badEvent.familyPrice = (none : Option ℚ) from rfl,
      show badEvent.durationMinutes = (none : Option ℚ) from rfl,
      show badEvent.description = (none : Option String) from rfl,
      show badEvent.imageUrl = (none : Option String) from rfl]
    norm_num [truthyStr]
  have hscore : (scoreEvent badEvent AgeGroup.toddler (some badWeather)).score = -15 := by
    simp only [scoreEvent,
      show badEvent.ageMin = some 30 from rfl,
      show badEvent.ageMax = (none : Option ℚ) from rfl,
      show badEvent.distanceFromPrague = some 200 from rfl,
      show badEvent.adultPrice = some 1000 from rfl,
      show badEvent.childPrice = (none : Option ℚ) from rfl,
      show badEvent.familyPrice = (none : Option ℚ) from rfl,
      show badEvent.durationMinutes = (none : Option ℚ) from rfl,
      show badEvent.description = (none : Option String) from rfl,
      show badEvent.category = some cbad from rfl,
      show badEvent.isOutdoor = some true from rfl,
      show badEvent.title = "abc" from rfl,
      show badEvent.startDateTime = d0 from rfl]
    rw [hage, hdist, hprice, eventType_badEvent, htiming, hdur, seasonality_abc, hmult]
    have hmin : min (100 : ℚ)
        ((BASE_SCORE + 0 + 0 + 2 + -73 + 0 + 2 + 0) * (13/16)) = -247/16 := by
      rw [min_def]
      norm_num [BASE_SCORE]
    rw [hmin]
    show jsRound (-247/16) = -15
    rw [jsRound]
    refine Int.floor_eq_iff.mpr ⟨by norm_num, by norm_num⟩
  exact ⟨hscore, by rw [hscore]; norm_num⟩

end PFE
